import Mathlib

/-!
Shallow embedding of the retro-ui-template-nextjs image-generation feature:
the Zod request schema (src/lib/schemas/image-generation.ts), the
/api/generate-image route handlers (POST, GET, PUT, DELETE), the client
retry loop of useImageGeneration (src/hooks/useImageGeneration.ts) and the
UI state transitions of the hook / ImageGenerator component.

Modelling conventions: JavaScript strings are Lean String (ASCII inputs make
UTF-16 length and codepoint length agree); String.prototype.trim is jsTrim
over Char.isWhitespace; Date values are Nat timestamps; process.env lookups
are Option String arguments; thrown exceptions are represented by their
message string.
-/

namespace ImageGen

/-- The closed error-code set, from the ImageGenerationError union type in
src/lib/types/image-generation.ts. -/
inductive ImageGenerationError
  | INVALID_PROMPT
  | API_KEY_MISSING
  | API_KEY_INVALID
  | RATE_LIMIT_EXCEEDED
  | MODEL_UNAVAILABLE
  | GENERATION_FAILED
  | INTERNAL_ERROR
deriving DecidableEq, Repr

/-- All seven error codes, in declaration order of the union type. -/
def errorCodes : List ImageGenerationError :=
  [.INVALID_PROMPT, .API_KEY_MISSING, .API_KEY_INVALID, .RATE_LIMIT_EXCEEDED,
   .MODEL_UNAVAILABLE, .GENERATION_FAILED, .INTERNAL_ERROR]

/-- Image dimensions, from the dimensions object of SuccessResponse. -/
structure Dimensions where
  width : Nat
  height : Nat
deriving DecidableEq, Repr

/-- JavaScript String.prototype.trim: strip whitespace from both ends.
Used by the Zod .trim() transform in the request schema. -/
def jsTrim (s : String) : String :=
  ⟨((s.data.dropWhile Char.isWhitespace).reverse.dropWhile Char.isWhitespace).reverse⟩

/-- The default model of the request schema. -/
def defaultModel : String := "gemini-2.5-flash-image-preview"

/-- The allow-list of the model refine check in ImageGenerationRequestSchema. -/
def supportedModels : List String := ["gemini-2.5-flash-image-preview"]

/-- The validated request data produced by ImageGenerationRequestSchema
(the z.infer type: a trimmed prompt and a model string). -/
structure ParsedRequest where
  prompt : String
  model : String
deriving DecidableEq, Repr

namespace ImageGenerationRequestSchema

/-- Zod issues of the prompt field. Mirrors
prompt: z.string().min(1, ...).max(1000, ...).trim() — the min and max
checks run in chain order BEFORE the trim transform, so both see the
untrimmed string. -/
def promptIssues (prompt : String) : List String :=
  (if prompt.length < 1 then ["Prompt cannot be empty"] else []) ++
  (if prompt.length > 1000 then ["Prompt must be 1000 characters or less"] else [])

/-- Zod issues of the model field. Mirrors
model: z.string().optional().default(...).refine(includes, ...): an absent
model is replaced by the default before the refine runs. -/
def modelIssues (model : Option String) : List String :=
  if supportedModels.contains (model.getD defaultModel) then []
  else ["Invalid model specified"]

/-- ImageGenerationRequestSchema.safeParse on a body holding a prompt string
and an optional model string. On success the prompt is the trimmed string
and the model is the provided or default model. -/
def safeParse (prompt : String) (model : Option String) :
    Except (List String) ParsedRequest :=
  let issues := promptIssues prompt ++ modelIssues model
  if issues.isEmpty then
    .ok { prompt := jsTrim prompt, model := model.getD defaultModel }
  else
    .error issues

end ImageGenerationRequestSchema

/-- The request body as the POST handler sees it after request.json():
unparsable JSON (json() rejected, body null), JSON that parses but does not
conform to the schema object shape (prompt missing or of a wrong type), or
an object with a prompt string and an optional model string. -/
inductive Body
  | invalidJson
  | nonconforming (issuesMessage : String)
  | valid (prompt : String) (model : Option String)
deriving DecidableEq, Repr

/-- The base64 alphabet, for Buffer.from(...).toString of the route. -/
def base64Alphabet : List Char :=
  "ABCDEFGHIJKLMNOPQRSTUVWXYZabcdefghijklmnopqrstuvwxyz0123456789+/".data

/-- One base64 digit. -/
def b64digit (n : Nat) : Char := base64Alphabet.getD n 'A'

/-- Standard base64 of a byte list, with padding. -/
def base64EncodeList : List Nat → List Char
  | [] => []
  | [b1] =>
      [b64digit (b1 / 4), b64digit (b1 % 4 * 16), '=', '=']
  | [b1, b2] =>
      [b64digit (b1 / 4), b64digit (b1 % 4 * 16 + b2 / 16),
       b64digit (b2 % 16 * 4), '=']
  | b1 :: b2 :: b3 :: rest =>
      b64digit (b1 / 4) :: b64digit (b1 % 4 * 16 + b2 / 16) ::
      b64digit (b2 % 16 * 4 + b3 / 64) :: b64digit (b3 % 64) ::
      base64EncodeList rest

/-- Buffer.from(s).toString with base64 encoding: UTF-8 bytes, base64. -/
def base64OfString (s : String) : String :=
  ⟨base64EncodeList (s.toUTF8.toList.map (fun b => b.toNat))⟩

/-- The SVG template of the POST handler, with the prompt interpolated:
prompts longer than 25 characters are truncated to 25 plus an ellipsis. -/
def placeholderSvg (prompt : String) : String :=
  "\n      <svg width=\"512\" height=\"512\" xmlns=\"http://www.w3.org/2000/svg\">\n" ++
  "        <defs>\n" ++
  "          <linearGradient id=\"grad\" x1=\"0%\" y1=\"0%\" x2=\"100%\" y2=\"100%\">\n" ++
  "            <stop offset=\"0%\" style=\"stop-color:#667eea;stop-opacity:1\" />\n" ++
  "            <stop offset=\"100%\" style=\"stop-color:#764ba2;stop-opacity:1\" />\n" ++
  "          </linearGradient>\n" ++
  "        </defs>\n" ++
  "        <rect width=\"100%\" height=\"100%\" fill=\"url(#grad)\"/>\n" ++
  "        <circle cx=\"256\" cy=\"200\" r=\"60\" fill=\"rgba(255,255,255,0.2)\"/>\n" ++
  "        <text x=\"50%\" y=\"50%\" text-anchor=\"middle\" font-family=\"Arial, sans-serif\" font-size=\"20\" fill=\"white\" font-weight=\"bold\">AI Generated</text>\n" ++
  "        <text x=\"50%\" y=\"70%\" text-anchor=\"middle\" font-family=\"Arial, sans-serif\" font-size=\"14\" fill=\"rgba(255,255,255,0.8)\">\"" ++
  (if prompt.length > 25 then String.mk (prompt.data.take 25) ++ "..." else prompt) ++
  "\"</text>\n" ++
  "        <text x=\"50%\" y=\"85%\" text-anchor=\"middle\" font-family=\"Arial, sans-serif\" font-size=\"12\" fill=\"rgba(255,255,255,0.6)\">Demo Mode - RetroUI + Google AI</text>\n" ++
  "      </svg>\n    "

/-- The placeholderImageUrl data URL built by the POST handler. -/
def placeholderImageUrl (prompt : String) : String :=
  "data:image/svg+xml;base64," ++ base64OfString (placeholderSvg prompt)

/-- Success payload of the route (SuccessResponse without the literal
success flag, which the ResponseBody constructor carries). -/
structure SuccessBody where
  imageUrl : String
  requestId : String
  generatedAt : Nat
  dimensions : Dimensions
  prompt : String
  model : String
deriving DecidableEq, Repr

/-- Error payload of the route (ErrorResponse without the literal flag). -/
structure ErrorBody where
  error : ImageGenerationError
  message : String
  requestId : String
  generatedAt : Nat
deriving DecidableEq, Repr

/-- The JSON envelope: success with a SuccessBody or failure with an
ErrorBody, matching the ImageGenerationAPIResponse union. -/
inductive ResponseBody
  | success (b : SuccessBody)
  | failure (e : ErrorBody)
deriving DecidableEq, Repr

/-- An HTTP response of the route: status code plus JSON envelope. -/
structure HttpResponse where
  status : Nat
  body : ResponseBody
deriving DecidableEq, Repr

/-- Whether the envelope is a failure envelope. -/
def ResponseBody.isFailure : ResponseBody → Bool
  | .success _ => false
  | .failure _ => true

/-- JavaScript truthiness of process.env.GOOGLE_AI_API_KEY: the handler
guard if (!googleApiKey) fires when the variable is unset or empty. -/
def envKeyPresent : Option String → Bool
  | none => false
  | some k => !(k = "")

/-- The POST /api/generate-image handler on its non-throwing execution
path, from src/app/api/generate-image/route.ts: credential check first,
then JSON parse check, then schema validation, then the demo success
response with the placeholder image, 512 x 512 dimensions, the trimmed
prompt and the resolved model. -/
def POST (apiKey : Option String) (body : Body) (requestId : String)
    (generatedAt : Nat) : HttpResponse :=
  if !(envKeyPresent apiKey) then
    ⟨401, .failure ⟨.API_KEY_MISSING, "Google AI API key is not configured",
      requestId, generatedAt⟩⟩
  else
    match body with
    | .invalidJson =>
        ⟨400, .failure ⟨.INVALID_PROMPT, "Invalid JSON in request body",
          requestId, generatedAt⟩⟩
    | .nonconforming issuesMessage =>
        ⟨400, .failure ⟨.INVALID_PROMPT, issuesMessage, requestId, generatedAt⟩⟩
    | .valid prompt model =>
        match ImageGenerationRequestSchema.safeParse prompt model with
        | .error issues =>
            ⟨400, .failure ⟨.INVALID_PROMPT, String.intercalate ", " issues,
              requestId, generatedAt⟩⟩
        | .ok data =>
            ⟨200, .success ⟨placeholderImageUrl data.prompt, requestId,
              generatedAt, ⟨512, 512⟩, data.prompt, data.model⟩⟩

/-- Substring containment, for the includes checks of the catch block and
of the client retry condition. -/
def containsSubstr (s pat : String) : Bool :=
  decide (pat.data <:+: s.data)

/-- Result of the catch-block classification: code, HTTP status, message. -/
structure ErrorClassification where
  error : ImageGenerationError
  status : Nat
  message : String
deriving DecidableEq, Repr

/-- The substring-matching error classification of the POST catch block,
checked in source order. The GENERATION_FAILED branch leaves the status at
its initial 500; the fallthrough keeps INTERNAL_ERROR / 500. -/
def classifyCaughtError (errorMessage : String) : ErrorClassification :=
  if containsSubstr errorMessage "API key" then
    ⟨.API_KEY_INVALID, 401, "Invalid Google AI API key"⟩
  else if containsSubstr errorMessage "quota" || containsSubstr errorMessage "rate limit" then
    ⟨.RATE_LIMIT_EXCEEDED, 429, "Rate limit exceeded. Please try again later"⟩
  else if containsSubstr errorMessage "model" then
    ⟨.MODEL_UNAVAILABLE, 503, "The requested AI model is currently unavailable"⟩
  else if containsSubstr errorMessage "generation" || containsSubstr errorMessage "generate" then
    ⟨.GENERATION_FAILED, 500, "Failed to generate image. Please try a different prompt"⟩
  else
    ⟨.INTERNAL_ERROR, 500, "An unexpected error occurred during image generation"⟩

/-- The catch block of POST: classify the caught message and return the
failure envelope with the classified status code. -/
def handleCaughtError (errorMessage : String) (requestId : String)
    (generatedAt : Nat) : HttpResponse :=
  let c := classifyCaughtError errorMessage
  ⟨c.status, .failure ⟨c.error, c.message, requestId, generatedAt⟩⟩

/-- One full POST execution: thrown = some msg means an exception with that
message escaped the try body and reached the catch block; thrown = none is
the non-throwing path. The handler always returns an HttpResponse. -/
def POSTrun (apiKey : Option String) (body : Body) (thrown : Option String)
    (requestId : String) (generatedAt : Nat) : HttpResponse :=
  match thrown with
  | some msg => handleCaughtError msg requestId generatedAt
  | none => POST apiKey body requestId generatedAt

/-- The GET handler of the route: 405 with the uniform error envelope. -/
def GET (requestId : String) (generatedAt : Nat) : HttpResponse :=
  ⟨405, .failure ⟨.INTERNAL_ERROR, "Method not allowed. Use POST to generate images",
    requestId, generatedAt⟩⟩

/-- The PUT handler of the route: identical envelope to GET. -/
def PUT (requestId : String) (generatedAt : Nat) : HttpResponse :=
  ⟨405, .failure ⟨.INTERNAL_ERROR, "Method not allowed. Use POST to generate images",
    requestId, generatedAt⟩⟩

/-- The DELETE handler of the route: identical envelope to GET. -/
def DELETE (requestId : String) (generatedAt : Nat) : HttpResponse :=
  ⟨405, .failure ⟨.INTERNAL_ERROR, "Method not allowed. Use POST to generate images",
    requestId, generatedAt⟩⟩

/-! Client side: the retry loop of generateImage in
src/hooks/useImageGeneration.ts. -/

/-- The transient-error test of the retry condition: the caught message
contains one of the four substrings checked in the hook. -/
def transientError (errorMessage : String) : Bool :=
  containsSubstr errorMessage "network" || containsSubstr errorMessage "timeout" ||
  containsSubstr errorMessage "503" || containsSubstr errorMessage "502"

/-- Outcome of one fetch round-trip as the catch sees it: the success path,
or a failure carrying the thrown error message (a non-ok response or a
non-success envelope is thrown as an Error by the hook). -/
inductive FetchResult
  | ok
  | failed (errorMessage : String)
deriving DecidableEq, Repr

/-- Terminal state of one generateImage call chain. -/
inductive FinalState
  | completed
  | errored (message : String)
deriving DecidableEq, Repr

/-- Trace of one generateImage call chain: how many fetch attempts ran, the
backoff delays (milliseconds) slept before each retry, and the final state. -/
structure GenTrace where
  attempts : Nat
  delaysMs : List Nat
  final : FinalState
deriving DecidableEq, Repr

/-- The generateImage retry recursion of the hook, run against an arbitrary
infinite sequence of fetch outcomes (outcomes n is the result of the fetch
performed with retryCount = n). A failed attempt retries after
Math.pow(2, retryCount) * 1000 milliseconds exactly when
retryCount < maxRetries and the message passes the transient test;
otherwise the chain settles in the error state. The recursion is total
because maxRetries - retryCount strictly decreases on every retry. -/
def generateImageFrom (maxRetries : Nat) (outcomes : Nat → FetchResult)
    (retryCount : Nat) : GenTrace :=
  match outcomes retryCount with
  | .ok => ⟨1, [], .completed⟩
  | .failed msg =>
      if h : retryCount < maxRetries ∧ transientError msg = true then
        let rest := generateImageFrom maxRetries outcomes (retryCount + 1)
        ⟨rest.attempts + 1, 2 ^ retryCount * 1000 :: rest.delaysMs, rest.final⟩
      else
        ⟨1, [], .errored msg⟩
termination_by maxRetries - retryCount
decreasing_by omega

/-! Client side: the UI state of the hook and of ImageGenerator.tsx. -/

/-- Request lifecycle status of the ImageGenerationRequest UI type. -/
inductive RequestStatus
  | pending
  | generating
  | completed
  | error
deriving DecidableEq, Repr

/-- The ImageGenerationRequest entity of the types file (the UI-side
request record). -/
structure ImageGenerationRequest where
  id : String
  prompt : String
  timestamp : Nat
  status : RequestStatus
  model : String
deriving DecidableEq, Repr

/-- The GeneratedImage entity of the types file. -/
structure GeneratedImage where
  id : String
  requestId : String
  imageUrl : String
  prompt : String
  generatedAt : Nat
  dimensions : Dimensions
  fileSize : Option Nat
deriving DecidableEq, Repr

/-- The ImageGeneratorUIState record: a single nullable generatedImage
field holds the displayed result. -/
structure ImageGeneratorUIState where
  isLoading : Bool
  error : Option String
  currentRequest : Option ImageGenerationRequest
  generatedImage : Option GeneratedImage
  inputValue : String
deriving DecidableEq, Repr

/-- The initialState constant of the hook. -/
def initialState : ImageGeneratorUIState :=
  ⟨false, none, none, none, ""⟩

/-- The setState call made right before the fetch in generateImage (hook
and component alike): loading on, error cleared, the new request current,
and the previous generated image cleared. -/
def startGeneration (prev : ImageGeneratorUIState)
    (request : ImageGenerationRequest) : ImageGeneratorUIState :=
  { prev with
      isLoading := true
      error := none
      currentRequest := some request
      generatedImage := none }

/-- The setState call of the success path: loading off, request marked
completed, and the freshly built GeneratedImage installed. -/
def completeGeneration (prev : ImageGeneratorUIState)
    (request : ImageGenerationRequest) (image : GeneratedImage) :
    ImageGeneratorUIState :=
  { prev with
      isLoading := false
      error := none
      currentRequest := some { request with status := .completed }
      generatedImage := some image }

/-- The setState call of the final error path: loading off, the error
message installed, request marked errored; generatedImage is untouched. -/
def failGeneration (prev : ImageGeneratorUIState)
    (request : ImageGenerationRequest) (message : String) :
    ImageGeneratorUIState :=
  { prev with
      isLoading := false
      error := some message
      currentRequest := some { request with status := .error } }

/-! Helper lemmas. -/

/-- dropWhile leaves a list unchanged when no element satisfies the test. -/
lemma dropWhile_eq_self_of_forall_not (p : Char → Bool) (l : List Char)
    (h : ∀ c ∈ l, p c = false) : l.dropWhile p = l := by
  cases l with
  | nil => rfl
  | cons a l => simp [List.dropWhile_cons, h a (by simp)]

/-- dropWhile empties a list when every element satisfies the test. -/
lemma dropWhile_eq_nil_of_forall (p : Char → Bool) (l : List Char)
    (h : ∀ c ∈ l, p c = true) : l.dropWhile p = [] := by
  induction l with
  | nil => rfl
  | cons a l ih =>
      simp only [List.dropWhile_cons, h a (by simp), if_pos]
      exact ih fun c hc => h c (by simp [hc])

/-- Trimming a string with no whitespace characters is the identity. -/
lemma jsTrim_eq_self (s : String) (h : ∀ c ∈ s.data, c.isWhitespace = false) :
    jsTrim s = s := by
  unfold jsTrim
  rw [dropWhile_eq_self_of_forall_not _ _ h,
      dropWhile_eq_self_of_forall_not _ _ (fun c hc => h c (List.mem_reverse.mp hc)),
      List.reverse_reverse]

/-- Trimming a string of whitespace characters only gives the empty string. -/
lemma jsTrim_eq_empty (s : String) (h : ∀ c ∈ s.data, c.isWhitespace = true) :
    jsTrim s = "" := by
  unfold jsTrim
  rw [dropWhile_eq_nil_of_forall _ _ h]
  rfl

/-- The data of an appended string is the append of the data lists. -/
lemma data_append (a b : String) : (a ++ b).data = a.data ++ b.data := by
  cases a with
  | mk la => cases b with
    | mk lb => rfl

/-- The placeholder data URL is never the empty string: it starts with the
literal data:image/svg+xml prefix. -/
lemma placeholderImageUrl_ne_empty (prompt : String) :
    placeholderImageUrl prompt ≠ "" := by
  unfold placeholderImageUrl
  intro h
  have hd := congrArg String.data h
  rw [data_append] at hd
  have : ("data:image/svg+xml;base64," : String).data = [] :=
    (List.append_eq_nil.mp hd).1
  simp at this

/-- A nonempty string has positive length. -/
lemma one_le_length_of_ne_empty (s : String) (h : s ≠ "") : 1 ≤ s.length := by
  cases s with
  | mk l =>
      cases l with
      | nil => exact absurd rfl h
      | cons a l => simp [String.length]

/-- POST on a schema-conforming body: the 200 demo success response. -/
lemma POST_valid_eq (apiKey : Option String) (prompt : String)
    (model : Option String) (requestId : String) (generatedAt : Nat)
    (hkey : envKeyPresent apiKey = true)
    (hgood : ImageGenerationRequestSchema.promptIssues prompt ++
      ImageGenerationRequestSchema.modelIssues model = []) :
    POST apiKey (.valid prompt model) requestId generatedAt =
      ⟨200, .success ⟨placeholderImageUrl (jsTrim prompt), requestId, generatedAt,
        ⟨512, 512⟩, jsTrim prompt, model.getD defaultModel⟩⟩ := by
  simp [POST, hkey, ImageGenerationRequestSchema.safeParse, hgood]

/-- POST on a body the schema rejects: 400 with INVALID_PROMPT and the
joined issue messages. -/
lemma POST_invalid_eq (apiKey : Option String) (prompt : String)
    (model : Option String) (requestId : String) (generatedAt : Nat)
    (hkey : envKeyPresent apiKey = true)
    (hbad : ImageGenerationRequestSchema.promptIssues prompt ++
      ImageGenerationRequestSchema.modelIssues model ≠ []) :
    POST apiKey (.valid prompt model) requestId generatedAt =
      ⟨400, .failure ⟨.INVALID_PROMPT,
        String.intercalate ", " (ImageGenerationRequestSchema.promptIssues prompt ++
          ImageGenerationRequestSchema.modelIssues model),
        requestId, generatedAt⟩⟩ := by
  have h : (ImageGenerationRequestSchema.promptIssues prompt ++
      ImageGenerationRequestSchema.modelIssues model).isEmpty = false := by
    cases h : ImageGenerationRequestSchema.promptIssues prompt ++
        ImageGenerationRequestSchema.modelIssues model with
    | nil => exact absurd h hbad
    | cons a l => rfl
  simp [POST, hkey, ImageGenerationRequestSchema.safeParse, h]

/-! Claim theorems. -/

/-- C1 counterexample: the claim says every whitespace-only prompt gets
HTTP 400 with INVALID_PROMPT, but for the single-space prompt (credential
present) the handler returns HTTP 200 with a success envelope: the min and
max length checks of the Zod chain run before the trim transform, so the
one-character whitespace prompt passes validation. -/
theorem C1_counterexample :
    (POST (some "test-key") (.valid " " none) "req-c1" 0).status = 200 ∧
    (POST (some "test-key") (.valid " " none) "req-c1" 0).body.isFailure = false :=
  ⟨rfl, rfl⟩

/-- C1 amended: with the credential present, a request whose prompt is the
empty string returns HTTP 400 with error code INVALID_PROMPT and
success false; but a whitespace-only prompt that is nonempty (and within
the 1000-character limit, with no model or the default model) passes
validation and returns HTTP 200 with a success envelope. -/
theorem C1_amended_empty_prompt (apiKey : Option String) (prompt : String)
    (model : Option String) (requestId : String) (generatedAt : Nat)
    (hkey : envKeyPresent apiKey = true) :
    (prompt = "" →
      (POST apiKey (.valid prompt model) requestId generatedAt).status = 400 ∧
      ∃ msg, (POST apiKey (.valid prompt model) requestId generatedAt).body =
        .failure ⟨.INVALID_PROMPT, msg, requestId, generatedAt⟩) ∧
    ((∀ c ∈ prompt.data, c.isWhitespace = true) → prompt ≠ "" →
      prompt.length ≤ 1000 → (model = none ∨ model = some defaultModel) →
      (POST apiKey (.valid prompt model) requestId generatedAt).status = 200 ∧
      (POST apiKey (.valid prompt model) requestId generatedAt).body.isFailure = false) := by
  constructor
  · intro h
    subst h
    have hbad : ImageGenerationRequestSchema.promptIssues "" ++
        ImageGenerationRequestSchema.modelIssues model ≠ [] := by
      unfold ImageGenerationRequestSchema.promptIssues
      simp [String.length]
    rw [POST_invalid_eq apiKey "" model requestId generatedAt hkey hbad]
    exact ⟨rfl, _, rfl⟩
  · intro hws hne hlen hm
    have hgood : ImageGenerationRequestSchema.promptIssues prompt ++
        ImageGenerationRequestSchema.modelIssues model = [] := by
      have h1 : ImageGenerationRequestSchema.promptIssues prompt = [] := by
        unfold ImageGenerationRequestSchema.promptIssues
        have hp := one_le_length_of_ne_empty prompt hne
        rw [if_neg (by omega), if_neg (by omega)]
        rfl
      have h2 : ImageGenerationRequestSchema.modelIssues model = [] := by
        rcases hm with h | h <;> subst h <;> rfl
      rw [h1, h2]
      rfl
    rw [POST_valid_eq apiKey prompt model requestId generatedAt hkey hgood]
    exact ⟨rfl, rfl⟩

/-- C1 witness: the amended claim at the empty prompt (400, INVALID_PROMPT)
and at the single-space prompt (200, success). -/
theorem C1_amended_empty_prompt_witness :
    ((POST (some "test-key") (.valid "" none) "req-w1" 0).status = 400 ∧
      ∃ msg, (POST (some "test-key") (.valid "" none) "req-w1" 0).body =
        .failure ⟨.INVALID_PROMPT, msg, "req-w1", 0⟩) ∧
    ((POST (some "test-key") (.valid " " none) "req-w2" 1).status = 200 ∧
      (POST (some "test-key") (.valid " " none) "req-w2" 1).body.isFailure = false) :=
  ⟨(C1_amended_empty_prompt (some "test-key") "" none "req-w1" 0 rfl).1 rfl,
   (C1_amended_empty_prompt (some "test-key") " " none "req-w2" 1 rfl).2
     (by decide) (by decide) (by decide) (Or.inl rfl)⟩

/-- C2: with the credential present, a prompt of length 1 to 1000 made of
non-whitespace characters, and no model or the default model, POST returns
HTTP 200 with a success envelope whose imageUrl is nonempty (and whose
prompt field echoes the prompt, which trimming leaves unchanged). -/
theorem C2_valid_prompt_success (apiKey : Option String) (prompt : String)
    (model : Option String) (requestId : String) (generatedAt : Nat)
    (hkey : envKeyPresent apiKey = true)
    (hlen1 : 1 ≤ prompt.length) (hlen2 : prompt.length ≤ 1000)
    (hws : ∀ c ∈ prompt.data, c.isWhitespace = false)
    (hm : model = none ∨ model = some defaultModel) :
    ∃ url, url ≠ "" ∧
      POST apiKey (.valid prompt model) requestId generatedAt =
        ⟨200, .success ⟨url, requestId, generatedAt, ⟨512, 512⟩, prompt,
          defaultModel⟩⟩ := by
  have hgood : ImageGenerationRequestSchema.promptIssues prompt ++
      ImageGenerationRequestSchema.modelIssues model = [] := by
    have h1 : ImageGenerationRequestSchema.promptIssues prompt = [] := by
      unfold ImageGenerationRequestSchema.promptIssues
      rw [if_neg (by omega), if_neg (by omega)]
      rfl
    have h2 : ImageGenerationRequestSchema.modelIssues model = [] := by
      rcases hm with h | h <;> subst h <;> rfl
    rw [h1, h2]
    rfl
  have heq := POST_valid_eq apiKey prompt model requestId generatedAt hkey hgood
  rw [jsTrim_eq_self prompt hws] at heq
  have hmodel : model.getD defaultModel = defaultModel := by
    rcases hm with h | h <;> subst h <;> rfl
  rw [hmodel] at heq
  exact ⟨placeholderImageUrl prompt, placeholderImageUrl_ne_empty prompt, heq⟩

/-- C2 witness: the valid five-letter prompt hello with no model. -/
theorem C2_valid_prompt_success_witness :
    ∃ url, url ≠ "" ∧
      POST (some "test-key") (.valid "hello" none) "req-w3" 2 =
        ⟨200, .success ⟨url, "req-w3", 2, ⟨512, 512⟩, "hello", defaultModel⟩⟩ :=
  C2_valid_prompt_success (some "test-key") "hello" none "req-w3" 2 rfl
    (by decide) (by decide) (by decide) (Or.inl rfl)

/-- C3: when the credential is absent (unset or empty, both falsy), POST
returns HTTP 401 with API_KEY_MISSING for every request body whatsoever:
the credential check is the first step and does not look at the body. -/
theorem C3_missing_credential (apiKey : Option String)
    (hkey : envKeyPresent apiKey = false) (body : Body) (requestId : String)
    (generatedAt : Nat) :
    POST apiKey body requestId generatedAt =
      ⟨401, .failure ⟨.API_KEY_MISSING, "Google AI API key is not configured",
        requestId, generatedAt⟩⟩ := by
  simp [POST, hkey]

/-- C3 witness: the unset credential with an unparsable body. -/
theorem C3_missing_credential_witness :
    POST none .invalidJson "req-w4" 3 =
      ⟨401, .failure ⟨.API_KEY_MISSING, "Google AI API key is not configured",
        "req-w4", 3⟩⟩ :=
  C3_missing_credential none rfl .invalidJson "req-w4" 3

/-- C5: for the prompt A sunset over mountains with the credential present,
the success response carries dimensions 512 x 512 and echoes the submitted
prompt unchanged. -/
theorem C5_sunset_scenario (apiKey : Option String) (requestId : String)
    (generatedAt : Nat) (hkey : envKeyPresent apiKey = true) :
    POST apiKey (.valid "A sunset over mountains" none) requestId generatedAt =
      ⟨200, .success ⟨placeholderImageUrl "A sunset over mountains", requestId,
        generatedAt, ⟨512, 512⟩, "A sunset over mountains", defaultModel⟩⟩ := by
  have h : ImageGenerationRequestSchema.safeParse "A sunset over mountains" none =
      .ok ⟨"A sunset over mountains", defaultModel⟩ := by rfl
  simp [POST, hkey, h]

/-- C5 witness: the scenario at a concrete credential and request id. -/
theorem C5_sunset_scenario_witness :
    POST (some "test-key") (.valid "A sunset over mountains" none) "req-w5" 4 =
      ⟨200, .success ⟨placeholderImageUrl "A sunset over mountains", "req-w5",
        4, ⟨512, 512⟩, "A sunset over mountains", defaultModel⟩⟩ :=
  C5_sunset_scenario (some "test-key") "req-w5" 4 rfl

/-- C6: the GET, PUT and DELETE handlers each return HTTP 405 with the
uniform error envelope: success false, an error code from the fixed set
(INTERNAL_ERROR), a message, the request id and the timestamp. -/
theorem C6_method_not_allowed (requestId : String) (generatedAt : Nat) :
    GET requestId generatedAt =
      ⟨405, .failure ⟨.INTERNAL_ERROR,
        "Method not allowed. Use POST to generate images", requestId, generatedAt⟩⟩ ∧
    PUT requestId generatedAt =
      ⟨405, .failure ⟨.INTERNAL_ERROR,
        "Method not allowed. Use POST to generate images", requestId, generatedAt⟩⟩ ∧
    DELETE requestId generatedAt =
      ⟨405, .failure ⟨.INTERNAL_ERROR,
        "Method not allowed. Use POST to generate images", requestId, generatedAt⟩⟩ ∧
    ImageGenerationError.INTERNAL_ERROR ∈ errorCodes :=
  ⟨rfl, rfl, rfl, by decide⟩

/-- C7: with the credential present, every prompt longer than 1000
characters is rejected with HTTP 400 and error code INVALID_PROMPT. -/
theorem C7_overlong_prompt (apiKey : Option String) (prompt : String)
    (model : Option String) (requestId : String) (generatedAt : Nat)
    (hkey : envKeyPresent apiKey = true) (hlen : 1000 < prompt.length) :
    (POST apiKey (.valid prompt model) requestId generatedAt).status = 400 ∧
    ∃ msg, (POST apiKey (.valid prompt model) requestId generatedAt).body =
      .failure ⟨.INVALID_PROMPT, msg, requestId, generatedAt⟩ := by
  have hbad : ImageGenerationRequestSchema.promptIssues prompt ++
      ImageGenerationRequestSchema.modelIssues model ≠ [] := by
    unfold ImageGenerationRequestSchema.promptIssues
    rw [if_neg (by omega), if_pos (by omega)]
    simp
  rw [POST_invalid_eq apiKey prompt model requestId generatedAt hkey hbad]
  exact ⟨rfl, _, rfl⟩

/-- C7 witness: a prompt of 1001 identical characters. -/
theorem C7_overlong_prompt_witness :
    (POST (some "test-key") (.valid (String.mk (List.replicate 1001 'a')) none)
      "req-w6" 5).status = 400 ∧
    ∃ msg, (POST (some "test-key")
      (.valid (String.mk (List.replicate 1001 'a')) none) "req-w6" 5).body =
      .failure ⟨.INVALID_PROMPT, msg, "req-w6", 5⟩ :=
  C7_overlong_prompt (some "test-key") (String.mk (List.replicate 1001 'a'))
    none "req-w6" 5 rfl
    (by show 1000 < (List.replicate 1001 'a').length; rw [List.length_replicate]; norm_num)

/-- C9: the UI state holds at most one generated result in its single
nullable generatedImage field: starting a generation clears it to none
before the fetch, and each successful completion installs exactly the new
image, so two sequential generations each fully replace the previous
result. -/
theorem C9_single_result_replacement (s : ImageGeneratorUIState)
    (r1 r2 : ImageGenerationRequest) (i1 i2 : GeneratedImage) :
    (startGeneration s r1).generatedImage = none ∧
    (completeGeneration (startGeneration s r1) r1 i1).generatedImage = some i1 ∧
    (startGeneration (completeGeneration (startGeneration s r1) r1 i1)
      r2).generatedImage = none ∧
    (completeGeneration (startGeneration
      (completeGeneration (startGeneration s r1) r1 i1) r2) r2 i2).generatedImage =
      some i2 :=
  ⟨rfl, rfl, rfl, rfl⟩

/-- C10: with the credential present, a request carrying a model other than
the single supported one is rejected with HTTP 400 and the prompt-validation
code INVALID_PROMPT, whatever the prompt is. -/
theorem C10_unsupported_model (apiKey : Option String) (prompt m : String)
    (requestId : String) (generatedAt : Nat)
    (hkey : envKeyPresent apiKey = true) (hm : m ≠ defaultModel) :
    (POST apiKey (.valid prompt (some m)) requestId generatedAt).status = 400 ∧
    ∃ msg, (POST apiKey (.valid prompt (some m)) requestId generatedAt).body =
      .failure ⟨.INVALID_PROMPT, msg, requestId, generatedAt⟩ := by
  have hmodel : ImageGenerationRequestSchema.modelIssues (some m) =
      ["Invalid model specified"] := by
    unfold ImageGenerationRequestSchema.modelIssues
    simp [supportedModels, defaultModel] at hm ⊢
    simp [Option.getD, hm]
  have hbad : ImageGenerationRequestSchema.promptIssues prompt ++
      ImageGenerationRequestSchema.modelIssues (some m) ≠ [] := by
    rw [hmodel]
    simp
  rw [POST_invalid_eq apiKey prompt (some m) requestId generatedAt hkey hbad]
  exact ⟨rfl, _, rfl⟩

/-- C10 witness: a valid prompt with the unsupported model gpt-4. -/
theorem C10_unsupported_model_witness :
    (POST (some "test-key") (.valid "hello" (some "gpt-4")) "req-w7" 6).status = 400 ∧
    ∃ msg, (POST (some "test-key") (.valid "hello" (some "gpt-4")) "req-w7" 6).body =
      .failure ⟨.INVALID_PROMPT, msg, "req-w7", 6⟩ :=
  C10_unsupported_model (some "test-key") "hello" "gpt-4" "req-w7" 6 rfl (by decide)

/-- C4: when an exception with any message reaches the catch block, POST
still returns a JSON failure envelope (the handler is a total function into
HttpResponse, never re-throwing), whose code is drawn from the fixed
seven-code set by substring-matching the message in source order:
API key gives API_KEY_INVALID / 401, else quota or rate limit gives
RATE_LIMIT_EXCEEDED / 429, else model gives MODEL_UNAVAILABLE / 503, else
generation or generate gives GENERATION_FAILED / 500, else
INTERNAL_ERROR / 500. -/
theorem C4_catch_envelope (apiKey : Option String) (body : Body)
    (msg requestId : String) (generatedAt : Nat) :
    POSTrun apiKey body (some msg) requestId generatedAt =
      ⟨(classifyCaughtError msg).status,
       .failure ⟨(classifyCaughtError msg).error, (classifyCaughtError msg).message,
         requestId, generatedAt⟩⟩ ∧
    (classifyCaughtError msg).error ∈ errorCodes ∧
    (containsSubstr msg "API key" = true →
      (classifyCaughtError msg).error = .API_KEY_INVALID ∧
      (classifyCaughtError msg).status = 401) ∧
    (containsSubstr msg "API key" = false →
      (containsSubstr msg "quota" || containsSubstr msg "rate limit") = true →
      (classifyCaughtError msg).error = .RATE_LIMIT_EXCEEDED ∧
      (classifyCaughtError msg).status = 429) ∧
    (containsSubstr msg "API key" = false →
      (containsSubstr msg "quota" || containsSubstr msg "rate limit") = false →
      containsSubstr msg "model" = true →
      (classifyCaughtError msg).error = .MODEL_UNAVAILABLE ∧
      (classifyCaughtError msg).status = 503) ∧
    (containsSubstr msg "API key" = false →
      (containsSubstr msg "quota" || containsSubstr msg "rate limit") = false →
      containsSubstr msg "model" = false →
      (containsSubstr msg "generation" || containsSubstr msg "generate") = true →
      (classifyCaughtError msg).error = .GENERATION_FAILED ∧
      (classifyCaughtError msg).status = 500) ∧
    (containsSubstr msg "API key" = false →
      (containsSubstr msg "quota" || containsSubstr msg "rate limit") = false →
      containsSubstr msg "model" = false →
      (containsSubstr msg "generation" || containsSubstr msg "generate") = false →
      (classifyCaughtError msg).error = .INTERNAL_ERROR ∧
      (classifyCaughtError msg).status = 500) := by
  refine ⟨rfl, ?_, ?_, ?_, ?_, ?_, ?_⟩
  · unfold classifyCaughtError
    split
    · decide
    · split
      · decide
      · split
        · decide
        · split
          · decide
          · decide
  · intro h1
    simp [classifyCaughtError, h1]
  · intro h1 h2
    simp [classifyCaughtError, h1, h2]
  · intro h1 h2 h3
    simp [classifyCaughtError, h1, h2, h3]
  · intro h1 h2 h3 h4
    simp [classifyCaughtError, h1, h2, h3, h4]
  · intro h1 h2 h3 h4
    simp [classifyCaughtError, h1, h2, h3, h4]

/-- C4 witness: a caught message containing API key is classified as
API_KEY_INVALID with status 401. -/
theorem C4_catch_envelope_witness :
    POSTrun none .invalidJson (some "bad API key") "req-w9" 8 =
      ⟨401, .failure ⟨.API_KEY_INVALID, "Invalid Google AI API key", "req-w9", 8⟩⟩ := by
  have h := C4_catch_envelope none .invalidJson "bad API key" "req-w9" 8
  have hc : containsSubstr "bad API key" "API key" = true := by decide
  rw [h.1]
  have he := h.2.2.1 hc
  rw [he.1, he.2]
  rfl

/-- Unfolding of the retry recursion on a successful fetch. -/
lemma generateImageFrom_ok (maxRetries : Nat) (outcomes : Nat → FetchResult)
    (c : Nat) (hc : outcomes c = .ok) :
    generateImageFrom maxRetries outcomes c = ⟨1, [], .completed⟩ := by
  rw [generateImageFrom, hc]

/-- Unfolding of the retry recursion on a failed fetch that retries. -/
lemma generateImageFrom_failed_retry (maxRetries : Nat)
    (outcomes : Nat → FetchResult) (c : Nat) (msg : String)
    (hc : outcomes c = .failed msg)
    (h : c < maxRetries ∧ transientError msg = true) :
    generateImageFrom maxRetries outcomes c =
      ⟨(generateImageFrom maxRetries outcomes (c + 1)).attempts + 1,
       2 ^ c * 1000 :: (generateImageFrom maxRetries outcomes (c + 1)).delaysMs,
       (generateImageFrom maxRetries outcomes (c + 1)).final⟩ := by
  rw [generateImageFrom, hc]
  exact dif_pos h

/-- Unfolding of the retry recursion on a failed fetch that settles. -/
lemma generateImageFrom_failed_stop (maxRetries : Nat)
    (outcomes : Nat → FetchResult) (c : Nat) (msg : String)
    (hc : outcomes c = .failed msg)
    (h : ¬(c < maxRetries ∧ transientError msg = true)) :
    generateImageFrom maxRetries outcomes c = ⟨1, [], .errored msg⟩ := by
  rw [generateImageFrom, hc]
  exact dif_neg h

/-- Invariants of the retry recursion from an arbitrary starting
retryCount c: at least one and at most maxRetries - c + 1 attempts run,
the recorded backoff delays are exactly the exponential schedule
2 ^ (c + i) * 1000 milliseconds, and every attempt that was followed by a
retry failed with a message passing the transient test. -/
lemma generateImageFrom_spec (maxRetries : Nat) (outcomes : Nat → FetchResult) :
    ∀ fuel c, maxRetries - c ≤ fuel →
      1 ≤ (generateImageFrom maxRetries outcomes c).attempts ∧
      (generateImageFrom maxRetries outcomes c).attempts ≤ maxRetries - c + 1 ∧
      (generateImageFrom maxRetries outcomes c).delaysMs =
        (List.range ((generateImageFrom maxRetries outcomes c).attempts - 1)).map
          (fun i => 2 ^ (c + i) * 1000) ∧
      (∀ j, j + 1 < (generateImageFrom maxRetries outcomes c).attempts →
        ∃ msg, outcomes (c + j) = .failed msg ∧ transientError msg = true) := by
  intro fuel
  induction fuel with
  | zero =>
      intro c hc
      cases houtcome : outcomes c with
      | ok => rw [generateImageFrom_ok maxRetries outcomes c houtcome]; simp
      | failed msg =>
          rw [generateImageFrom_failed_stop maxRetries outcomes c msg houtcome
            (fun h => absurd h.1 (by omega))]
          simp
  | succ fuel ih =>
      intro c hc
      cases houtcome : outcomes c with
      | ok => rw [generateImageFrom_ok maxRetries outcomes c houtcome]; simp
      | failed msg =>
          by_cases hret : c < maxRetries ∧ transientError msg = true
          · rw [generateImageFrom_failed_retry maxRetries outcomes c msg houtcome hret]
            obtain ⟨ih1, ih2, ih3, ih4⟩ := ih (c + 1) (by omega)
            obtain ⟨n, hn⟩ : ∃ n,
                (generateImageFrom maxRetries outcomes (c + 1)).attempts = n + 1 :=
              ⟨(generateImageFrom maxRetries outcomes (c + 1)).attempts - 1, by omega⟩
            rw [hn] at ih2 ih3 ih4
            refine ⟨by simp, ?_, ?_, ?_⟩
            · show (generateImageFrom maxRetries outcomes (c + 1)).attempts + 1 ≤
                maxRetries - c + 1
              omega
            · show 2 ^ c * 1000 ::
                  (generateImageFrom maxRetries outcomes (c + 1)).delaysMs =
                (List.range
                  ((generateImageFrom maxRetries outcomes (c + 1)).attempts + 1 - 1)).map
                  (fun i => 2 ^ (c + i) * 1000)
              rw [hn]
              simp only [Nat.add_sub_cancel] at ih3 ⊢
              rw [List.range_succ_eq_map, List.map_cons, List.map_map, ih3]
              refine congrArg₂ _ (by norm_num) ?_
              refine List.map_congr_left fun i _ => ?_
              show 2 ^ (c + 1 + i) * 1000 = 2 ^ (c + (i + 1)) * 1000
              rw [show c + 1 + i = c + (i + 1) from by omega]
            · intro j hj
              have hj2 : j + 1 <
                  (generateImageFrom maxRetries outcomes (c + 1)).attempts + 1 := hj
              cases j with
              | zero => exact ⟨msg, by rw [Nat.add_zero]; exact houtcome, hret.2⟩
              | succ j =>
                  obtain ⟨m, hm1, hm2⟩ := ih4 j (by omega)
                  exact ⟨m,
                    by rw [show c + (j + 1) = c + 1 + j from by omega]; exact hm1, hm2⟩
          · rw [generateImageFrom_failed_stop maxRetries outcomes c msg houtcome hret]
            simp

/-- C8: the client retry loop, started at retryCount 0 and run against any
sequence of fetch outcomes, performs at most maxRetries + 1 fetch attempts
(so at most maxRetries retries) before settling, sleeps exactly
2 ^ retryCount * 1000 milliseconds (2 ^ retryCount seconds) before the
retry numbered retryCount, and retries only attempts that failed with a
message containing one of the transient substrings; totality of
generateImageFrom renders termination for every outcome sequence. -/
theorem C8_retry_bounded (maxRetries : Nat) (outcomes : Nat → FetchResult) :
    (generateImageFrom maxRetries outcomes 0).attempts ≤ maxRetries + 1 ∧
    (generateImageFrom maxRetries outcomes 0).delaysMs =
      (List.range ((generateImageFrom maxRetries outcomes 0).attempts - 1)).map
        (fun i => 2 ^ i * 1000) ∧
    (∀ j, j + 1 < (generateImageFrom maxRetries outcomes 0).attempts →
      ∃ msg, outcomes j = .failed msg ∧ transientError msg = true) := by
  obtain ⟨h1, h2, h3, h4⟩ :=
    generateImageFrom_spec maxRetries outcomes maxRetries 0 (by omega)
  refine ⟨by omega, ?_, ?_⟩
  · rw [h3]
    exact List.map_congr_left fun i _ => by rw [Nat.zero_add]
  · intro j hj
    obtain ⟨m, hm1, hm2⟩ := h4 j hj
    rw [Nat.zero_add] at hm1
    exact ⟨m, hm1, hm2⟩

/-- C8 witness: with the default ceiling of three retries and every fetch
failing with a transient network message, at most four attempts run. -/
theorem C8_retry_bounded_witness :
    (generateImageFrom 3 (fun _ => .failed "network error") 0).attempts ≤ 4 :=
  (C8_retry_bounded 3 (fun _ => .failed "network error")).1

/-- C6 witness: the three handlers at a concrete request id and time. -/
theorem C6_method_not_allowed_witness :
    GET "req-w10" 9 =
      ⟨405, .failure ⟨.INTERNAL_ERROR,
        "Method not allowed. Use POST to generate images", "req-w10", 9⟩⟩ ∧
    PUT "req-w10" 9 =
      ⟨405, .failure ⟨.INTERNAL_ERROR,
        "Method not allowed. Use POST to generate images", "req-w10", 9⟩⟩ ∧
    DELETE "req-w10" 9 =
      ⟨405, .failure ⟨.INTERNAL_ERROR,
        "Method not allowed. Use POST to generate images", "req-w10", 9⟩⟩ ∧
    ImageGenerationError.INTERNAL_ERROR ∈ errorCodes :=
  C6_method_not_allowed "req-w10" 9

/-- C9 witness: two concrete sequential generations from the initial
state. -/
theorem C9_single_result_replacement_witness :
    (startGeneration initialState
      ⟨"r1", "a cat", 0, .generating, defaultModel⟩).generatedImage = none ∧
    (completeGeneration (startGeneration initialState
        ⟨"r1", "a cat", 0, .generating, defaultModel⟩)
      ⟨"r1", "a cat", 0, .generating, defaultModel⟩
      ⟨"g1", "r1", "url1", "a cat", 0, ⟨512, 512⟩, none⟩).generatedImage =
      some ⟨"g1", "r1", "url1", "a cat", 0, ⟨512, 512⟩, none⟩ ∧
    (startGeneration (completeGeneration (startGeneration initialState
        ⟨"r1", "a cat", 0, .generating, defaultModel⟩)
      ⟨"r1", "a cat", 0, .generating, defaultModel⟩
      ⟨"g1", "r1", "url1", "a cat", 0, ⟨512, 512⟩, none⟩)
      ⟨"r2", "a dog", 1, .generating, defaultModel⟩).generatedImage = none ∧
    (completeGeneration (startGeneration (completeGeneration
        (startGeneration initialState
          ⟨"r1", "a cat", 0, .generating, defaultModel⟩)
        ⟨"r1", "a cat", 0, .generating, defaultModel⟩
        ⟨"g1", "r1", "url1", "a cat", 0, ⟨512, 512⟩, none⟩)
        ⟨"r2", "a dog", 1, .generating, defaultModel⟩)
      ⟨"r2", "a dog", 1, .generating, defaultModel⟩
      ⟨"g2", "r2", "url2", "a dog", 1, ⟨512, 512⟩, none⟩).generatedImage =
      some ⟨"g2", "r2", "url2", "a dog", 1, ⟨512, 512⟩, none⟩ :=
  C9_single_result_replacement initialState
    ⟨"r1", "a cat", 0, .generating, defaultModel⟩
    ⟨"r2", "a dog", 1, .generating, defaultModel⟩
    ⟨"g1", "r1", "url1", "a cat", 0, ⟨512, 512⟩, none⟩
    ⟨"g2", "r2", "url2", "a dog", 1, ⟨512, 512⟩, none⟩

end ImageGen
